import Mathlib

/-!
Verification of the mind-map generator front-end (files
`src/unnamed/part_000` and `src/unnamed/part_001`, two revisions of the
same React `App`).

The development shallowly embeds the only logic-bearing pieces of the
application:

* `cleanJsonString` — the code-fence stripper (identical in both files);
* a model of JavaScript `JSON.parse` over a `Json` value type;
* the response normalizer inside `handleGerarMapa` (node/edge reshaping
  and the `resumo || fallback` step, identical in both files);
* the view-state store (`tema`, `nodes`, `edges`, `resumo`, `telaAtual`)
  and the handlers `handleGerarMapa` (which differs between the two
  revisions in what it clears on entering LOADING), `handleVoltar` and
  `handleExportPDF`.

External effects (the network call, DOM rasterization, PDF assembly) are
abstracted as outcome parameters; everything the source computes purely is
translated directly.
-/

/-- JavaScript values produced by `JSON.parse` and by the normalizer.
`undef` models the JavaScript value `undefined` (never produced by the
parser, but produced by member access on an absent key).  Numbers are
kept as their source lexeme, since no code in the repository computes
with them — they are passed through verbatim. -/
inductive Json where
  | undef
  | null
  | bool (b : Bool)
  | num (lit : String)
  | str (s : String)
  | arr (xs : List Json)
  | obj (fields : List (String × Json))

/-- First value bound to a key in an object's field list (field lists
built by the parser or by `objInsert` have unique keys). -/
def objFind (k : String) : List (String × Json) → Option Json
  | [] => none
  | (k', v) :: rest => if k' = k then some v else objFind k rest

/-- `objInsert k v o` models the JavaScript property write `o[k] = v` as
used when building an object literal left to right: an existing key keeps
its position and gets the new value, a new key is appended at the end. -/
def objInsert (k : String) (v : Json) : List (String × Json) → List (String × Json)
  | [] => [(k, v)]
  | (k', v') :: rest =>
    if k' = k then (k, v) :: rest else (k', v') :: objInsert k v rest

/-- JavaScript member access `j.k`, which throws a `TypeError` on `null`
and `undefined`, yields the field (or `undefined`) on objects, and yields
`undefined` on other primitives. -/
def jsMember (j : Json) (k : String) : Except Unit Json :=
  match j with
  | Json.null => Except.error ()
  | Json.undef => Except.error ()
  | Json.obj f => Except.ok ((objFind k f).getD Json.undef)
  | _ => Except.ok Json.undef

/-- Total member access used in theorem statements: `jget j k` is the
value of field `k` when `j` is an object, `undef` otherwise. -/
def jget (j : Json) (k : String) : Json :=
  match j with
  | Json.obj f => (objFind k f).getD Json.undef
  | _ => Json.undef

/-- JavaScript object-spread `{...j}`: an object contributes its fields,
a string or array contributes index-keyed entries, every other value
(including `null` and `undefined`) contributes nothing. -/
def jsSpread (j : Json) : List (String × Json) :=
  match j with
  | Json.obj f => f
  | Json.str s => (s.data.enum).map (fun p => (toString p.1, Json.str (String.mk [p.2])))
  | Json.arr xs => (xs.enum).map (fun p => (toString p.1, p.2))
  | _ => []

/-- Whether a JSON number lexeme denotes zero (every mantissa digit is
`0`, regardless of sign and exponent). -/
def numLexIsZero (lit : String) : Bool :=
  let m := lit.data.dropWhile (fun c => c == '-')
  let mantissa := m.takeWhile (fun c => c != 'e' && c != 'E')
  mantissa.all (fun c => c == '0' || c == '.')

/-- JavaScript truthiness of a value (as used by the `||` operator in
`dadosCompletos.resumo || '…'`).  `JSON.parse` never yields `NaN`, so
numeric falsiness is exactly "denotes zero". -/
def jsTruthy (j : Json) : Bool :=
  match j with
  | Json.undef => false
  | Json.null => false
  | Json.bool b => b
  | Json.num lit => !(numLexIsZero lit)
  | Json.str s => !(s == "")
  | Json.arr _ => true
  | Json.obj _ => true

/-- JavaScript `a || b` restricted to the values involved here. -/
def jsOrElse (a b : Json) : Json :=
  if jsTruthy a then a else b

/-! ### A model of `JSON.parse`

Fuel-based recursive-descent parser for the JSON grammar (ECMA-404, the
grammar accepted by JavaScript's `JSON.parse`): optional whitespace
around tokens, objects with later duplicate keys overriding earlier ones
in place, strings with the standard escapes, numbers with optional sign,
fraction and exponent.  The single deviation from `JSON.parse` is that a
lone UTF-16 surrogate written with a `\u` escape is rejected rather than
kept (Lean strings cannot hold lone surrogates); no input considered in
this development contains one. -/

/-- The four JSON whitespace characters. -/
def isJsonWsChar (c : Char) : Bool :=
  c == ' ' || c == '\t' || c == '\n' || c == '\r'

/-- Skip JSON whitespace. -/
def skipWs (cs : List Char) : List Char :=
  cs.dropWhile isJsonWsChar

/-- Value of a hexadecimal digit. -/
def hexDigitVal (c : Char) : Option Nat :=
  if '0' ≤ c ∧ c ≤ '9' then some (c.toNat - '0'.toNat)
  else if 'a' ≤ c ∧ c ≤ 'f' then some (c.toNat - 'a'.toNat + 10)
  else if 'A' ≤ c ∧ c ≤ 'F' then some (c.toNat - 'A'.toNat + 10)
  else none

/-- Parse the body of a JSON string after the opening quote, returning
the decoded string and the input after the closing quote. -/
def parseStrBody : Nat → List Char → List Char → Option (String × List Char)
  | 0, _, _ => none
  | _ + 1, [], _ => none
  | fuel + 1, c :: rest, acc =>
    if c == '"' then some (String.mk acc.reverse, rest)
    else if c == '\\' then
      match rest with
      | [] => none
      | e :: r2 =>
        if e == '"' then parseStrBody fuel r2 ('"' :: acc)
        else if e == '\\' then parseStrBody fuel r2 ('\\' :: acc)
        else if e == '/' then parseStrBody fuel r2 ('/' :: acc)
        else if e == 'b' then parseStrBody fuel r2 ('\x08' :: acc)
        else if e == 'f' then parseStrBody fuel r2 ('\x0c' :: acc)
        else if e == 'n' then parseStrBody fuel r2 ('\n' :: acc)
        else if e == 'r' then parseStrBody fuel r2 ('\r' :: acc)
        else if e == 't' then parseStrBody fuel r2 ('\t' :: acc)
        else if e == 'u' then
          match r2 with
          | h1 :: h2 :: h3 :: h4 :: r3 =>
            match hexDigitVal h1, hexDigitVal h2, hexDigitVal h3, hexDigitVal h4 with
            | some a, some b, some c2, some d =>
              let n := ((a * 16 + b) * 16 + c2) * 16 + d
              if 0xD800 ≤ n ∧ n ≤ 0xDBFF then
                match r3 with
                | '\\' :: 'u' :: g1 :: g2 :: g3 :: g4 :: r4 =>
                  match hexDigitVal g1, hexDigitVal g2, hexDigitVal g3, hexDigitVal g4 with
                  | some a2, some b2, some c3, some d2 =>
                    let m := ((a2 * 16 + b2) * 16 + c3) * 16 + d2
                    if 0xDC00 ≤ m ∧ m ≤ 0xDFFF then
                      parseStrBody fuel r4
                        (Char.ofNat (0x10000 + (n - 0xD800) * 0x400 + (m - 0xDC00)) :: acc)
                    else none
                  | _, _, _, _ => none
                | _ => none
              else if 0xDC00 ≤ n ∧ n ≤ 0xDFFF then none
              else parseStrBody fuel r3 (Char.ofNat n :: acc)
            | _, _, _, _ => none
          | _ => none
        else none
    else if c.toNat < 0x20 then none
    else parseStrBody fuel rest (c :: acc)

/-- Longest digit run and the remainder. -/
def digitsSpan (cs : List Char) : List Char × List Char :=
  (cs.takeWhile Char.isDigit, cs.dropWhile Char.isDigit)

/-- Parse the optional fraction and exponent of a JSON number, returning
their characters and the remainder. -/
def parseFracExp (cs : List Char) : Option (List Char × List Char) :=
  let fr : Option (List Char × List Char) :=
    match cs with
    | '.' :: r =>
      let (ds, r2) := digitsSpan r
      if ds.isEmpty then none else some ('.' :: ds, r2)
    | _ => some ([], cs)
  match fr with
  | none => none
  | some (fpart, cs2) =>
    match cs2 with
    | e :: r =>
      if e == 'e' || e == 'E' then
        let (sg, r2) :=
          match r with
          | '+' :: rr => (['+'], rr)
          | '-' :: rr => (['-'], rr)
          | _ => (([] : List Char), r)
        let (ds, r3) := digitsSpan r2
        if ds.isEmpty then none else some (fpart ++ e :: (sg ++ ds), r3)
      else some (fpart, cs2)
    | [] => some (fpart, [])

/-- Parse a JSON number lexeme (`-`? int frac? exp?, no leading zeros). -/
def parseNumLex (cs : List Char) : Option (String × List Char) :=
  let (sgn, cs1) :=
    match cs with
    | '-' :: r => ((['-'] : List Char), r)
    | _ => (([] : List Char), cs)
  match cs1 with
  | '0' :: r =>
    (parseFracExp r).map (fun fe => (String.mk (sgn ++ '0' :: fe.1), fe.2))
  | c :: _ =>
    if c.isDigit then
      let (ds, r) := digitsSpan cs1
      (parseFracExp r).map (fun fe => (String.mk (sgn ++ ds ++ fe.1), fe.2))
    else none
  | [] => none

mutual

/-- Parse one JSON value (leading whitespace allowed). -/
def parseVal : Nat → List Char → Option (Json × List Char)
  | 0, _ => none
  | fuel + 1, cs =>
    match skipWs cs with
    | 'n' :: 'u' :: 'l' :: 'l' :: rest => some (Json.null, rest)
    | 't' :: 'r' :: 'u' :: 'e' :: rest => some (Json.bool true, rest)
    | 'f' :: 'a' :: 'l' :: 's' :: 'e' :: rest => some (Json.bool false, rest)
    | '"' :: rest =>
      match parseStrBody (rest.length + 1) rest [] with
      | some (s, r) => some (Json.str s, r)
      | none => none
    | '[' :: rest =>
      match skipWs rest with
      | ']' :: r => some (Json.arr [], r)
      | r =>
        match parseArrElems fuel r [] with
        | some (xs, r2) => some (Json.arr xs, r2)
        | none => none
    | '\x7b' :: rest =>
      match skipWs rest with
      | '\x7d' :: r => some (Json.obj [], r)
      | r =>
        match parseObjFields fuel r [] with
        | some (fs, r2) => some (Json.obj fs, r2)
        | none => none
    | cs2 => (parseNumLex cs2).map (fun p => (Json.num p.1, p.2))

/-- Parse the elements of a non-empty array, after the opening bracket. -/
def parseArrElems : Nat → List Char → List Json → Option (List Json × List Char)
  | 0, _, _ => none
  | fuel + 1, cs, acc =>
    match parseVal fuel cs with
    | none => none
    | some (v, r) =>
      match skipWs r with
      | ',' :: r2 => parseArrElems fuel r2 (acc ++ [v])
      | ']' :: r2 => some (acc ++ [v], r2)
      | _ => none

/-- Parse the fields of a non-empty object, after the opening brace;
later duplicate keys override earlier ones in place, as in JavaScript. -/
def parseObjFields : Nat → List Char → List (String × Json) →
    Option (List (String × Json) × List Char)
  | 0, _, _ => none
  | fuel + 1, cs, acc =>
    match cs with
    | '"' :: rest =>
      match parseStrBody (rest.length + 1) rest [] with
      | none => none
      | some (k, r) =>
        match skipWs r with
        | ':' :: r2 =>
          match parseVal fuel r2 with
          | none => none
          | some (v, r3) =>
            match skipWs r3 with
            | ',' :: r4 => parseObjFields fuel (skipWs r4) (objInsert k v acc)
            | '\x7d' :: r4 => some (objInsert k v acc, r4)
            | _ => none
        | _ => none
    | _ => none

end

/-- Model of JavaScript `JSON.parse`: `none` exactly when `JSON.parse`
throws a `SyntaxError`. -/
def Json.parse (s : String) : Option Json :=
  match parseVal (2 * s.data.length + 2) s.data with
  | some (j, rest) => if (skipWs rest).isEmpty then some j else none
  | none => none

/-! ### `cleanJsonString`

Source (identical in `src/unnamed/part_000` lines 31–36 and
`src/unnamed/part_001` lines 38–43):

    function cleanJsonString(text) \x7b
      const cleanedText = text
        .replace(/^```json\s*\x2f, '')
        .replace(/```$\x2f, '');
      return cleanedText;
    \x7d

The first regex (anchored, non-global, non-multiline) removes a leading
"```json" together with the maximal run of following whitespace; the
second removes a trailing "```" at the very end of the string (in
JavaScript, `$` without the `m` flag matches only at the end of input,
not before a final newline). -/

/-- `charsStartWith p cs` is true when `p` is a prefix of `cs`. -/
def charsStartWith : List Char → List Char → Bool
  | [], _ => true
  | _ :: _, [] => false
  | p :: ps, c :: cs => p == c && charsStartWith ps cs

/-- `charsEndWith p cs` is true when `p` is a suffix of `cs`. -/
def charsEndWith (p cs : List Char) : Bool :=
  charsStartWith p.reverse cs.reverse

/-- The characters matched by the JavaScript regex class `\s`. -/
def isJsWhitespaceChar (c : Char) : Bool :=
  c == ' ' || c == '\t' || c == '\n' || c == '\r' || c == '\x0b' || c == '\x0c' ||
  c == '\u00A0' || c == '\u1680' || ('\u2000' ≤ c && c ≤ '\u200A') ||
  c == '\u2028' || c == '\u2029' || c == '\u202F' || c == '\u205F' ||
  c == '\u3000' || c == '\uFEFF'

/-- The fence stripper from both source files. -/
def cleanJsonString (text : String) : String :=
  let cs := text.data
  let afterLead :=
    if charsStartWith ("```json".data) cs then
      (cs.drop 7).dropWhile isJsWhitespaceChar
    else cs
  let cleaned :=
    if charsEndWith ("```".data) afterLead then
      (afterLead.reverse.drop 3).reverse
    else afterLead
  String.mk cleaned

/-! ### The response normalizer

From `handleGerarMapa` (identical in `src/unnamed/part_000` lines
134–158 and `src/unnamed/part_001` lines 134–154):

    respostaJsonString = cleanJsonString(respostaJsonString);
    const dadosCompletos = JSON.parse(respostaJsonString);
    const processedNodes = dadosCompletos.mapa.nodes.map(n => (\x7b
      ...n, type: 'mindmap', data: \x7b ...n.data, id: n.id \x7d \x7d));
    const processedEdges = dadosCompletos.mapa.edges.map(e => (\x7b
      ...e, animated: true, style: \x7b stroke: '#6b7280', strokeWidth: 2 \x7d \x7d));
    setNodes(processedNodes); setEdges(processedEdges);
    setResumo(dadosCompletos.resumo || 'Não foi possível gerar um resumo.');

Any exception thrown anywhere in this block (the `TypeError` from
dereferencing a missing `mapa`, a non-array `nodes`/`edges`, a `null`
node element, or the `SyntaxError` from `JSON.parse`) is modelled as
`Except.error ()` — the source's single `catch` does not distinguish
them. -/

/-- The node callback `n => (\x7b...n, type: 'mindmap', data: \x7b...n.data, id: n.id\x7d\x7d)`.
Object-literal fields are written left to right: spread of `n`, then
`type`, then `data` (whose own literal spreads `n.data` and then writes
`id`).  The member accesses `n.data` and `n.id` throw exactly when `n`
is `null` (or `undefined`, which `JSON.parse` never yields). -/
def processNode (n : Json) : Except Unit Json :=
  match jsMember n "data" with
  | Except.error e => Except.error e
  | Except.ok ndata =>
    match jsMember n "id" with
    | Except.error e => Except.error e
    | Except.ok nid =>
      Except.ok (Json.obj
        (objInsert "data" (Json.obj (objInsert "id" nid (jsSpread ndata)))
          (objInsert "type" (Json.str "mindmap") (jsSpread n))))

/-- The fixed stroke style attached to every edge:
`\x7b stroke: '#6b7280', strokeWidth: 2 \x7d`. -/
def edgeStyleJson : Json :=
  Json.obj [("stroke", Json.str "#6b7280"), ("strokeWidth", Json.num "2")]

/-- The edge callback `e => (\x7b...e, animated: true, style: \x7b…\x7d\x7d)`.
It performs no member access on `e`, so it cannot throw — it is a total
function. -/
def processEdge (e : Json) : Json :=
  Json.obj (objInsert "style" edgeStyleJson
    (objInsert "animated" (Json.bool true) (jsSpread e)))

/-- Left-to-right effectful map, as `Array.prototype.map` with a callback
that can throw: the first exception aborts the whole map. -/
def exMapList (f : Json → Except Unit Json) : List Json → Except Unit (List Json)
  | [] => Except.ok []
  | x :: xs =>
    match f x with
    | Except.error e => Except.error e
    | Except.ok y =>
      match exMapList f xs with
      | Except.error e => Except.error e
      | Except.ok ys => Except.ok (y :: ys)

/-- `.map` with a throwing callback on a value that must be an array
(calling `.map` on anything else throws). -/
def jsMapArrE (f : Json → Except Unit Json) (j : Json) : Except Unit (List Json) :=
  match j with
  | Json.arr xs => exMapList f xs
  | _ => Except.error ()

/-- `.map` with a total callback on a value that must be an array. -/
def jsMapArrP (f : Json → Json) (j : Json) : Except Unit (List Json) :=
  match j with
  | Json.arr xs => Except.ok (xs.map f)
  | _ => Except.error ()

/-- The fallback summary substituted when `dadosCompletos.resumo` is
falsy. -/
def fallbackResumo : String := "Não foi possível gerar um resumo."

/-- The reshaping step of `handleGerarMapa`'s `try` block, applied to the
already-parsed payload `dadosCompletos`: processed nodes, processed
edges, and the summary after the `||` fallback, or an error when the
block throws.  Evaluation order follows the source: nodes first, then
edges, then `resumo`. -/
def tryBlockBody (dados : Json) : Except Unit (List Json × List Json × Json) :=
  match jsMember dados "mapa" with
  | Except.error e => Except.error e
  | Except.ok mapa =>
    match jsMember mapa "nodes" with
    | Except.error e => Except.error e
    | Except.ok nodesJ =>
      match jsMapArrE processNode nodesJ with
      | Except.error e => Except.error e
      | Except.ok pNodes =>
        match jsMember mapa "edges" with
        | Except.error e => Except.error e
        | Except.ok edgesJ =>
          match jsMapArrP processEdge edgesJ with
          | Except.error e => Except.error e
          | Except.ok pEdges =>
            Except.ok (pNodes, pEdges,
              jsOrElse (jget dados "resumo") (Json.str fallbackResumo))

/-- The whole `try` block after the model's text response has been
obtained: fence stripping, `JSON.parse` (a parse failure throws), then
the reshaping step. -/
def tryBlock (text : String) : Except Unit (List Json × List Json × Json) :=
  match Json.parse (cleanJsonString text) with
  | none => Except.error ()
  | some dados => tryBlockBody dados

/-! ### View state and handlers -/

/-- The view state held by the `App` component: the five `useState`
slots.  `telaAtual` holds one of the literal strings `"HOME"`,
`"LOADING"`, `"RESULT"`, as in the source. -/
structure AppState where
  tema : String
  nodes : List Json
  edges : List Json
  resumo : Json
  telaAtual : String

/-- The initial `useState` values: `tema ''`, `nodes []`, `edges []`,
`resumo ''`, `telaAtual 'HOME'`. -/
def initialAppState : AppState :=
  { tema := "", nodes := [], edges := [], resumo := Json.str "", telaAtual := "HOME" }

/-- Alert shown when the topic is empty. -/
def alertDigiteTema : String := "Por favor, digite um tema."

/-- Alert shown when the API key is missing. -/
def alertChaveApi : String :=
  "Chave de API do Gemini não encontrada! Verifique o arquivo .env.local"

/-- The single generic alert shown by the `catch` of `handleGerarMapa`. -/
def alertErroGerar : String :=
  "Desculpe, ocorreu um erro ao gerar o mapa. (Verifique o console F12 e se sua chave de API é válida)."

/-- Alert shown by the `catch` of `handleExportPDF`. -/
def alertErroExport : String := "Desculpe, ocorreu um erro ao exportar o PDF."

/-- Entry to LOADING as written in `src/unnamed/part_000` lines 110–112:
`setTelaAtual('LOADING'); setNodes([]); setResumo('');` — the edge list
is not touched. -/
def enterLoadingV0 (s : AppState) : AppState :=
  { s with telaAtual := "LOADING", nodes := [], resumo := Json.str "" }

/-- Entry to LOADING as written in `src/unnamed/part_001` lines 109–112:
`setTelaAtual('LOADING'); setNodes([]); setEdges([]); setResumo('');`. -/
def enterLoadingV1 (s : AppState) : AppState :=
  { s with telaAtual := "LOADING", nodes := [], edges := [], resumo := Json.str "" }

/-- Outcome of `model.generateContent(prompt)` / `result.response` /
`response.text()`: either some raw text, or a thrown error (network
failure, invalid key, …). -/
inductive GenOutcome where
  | throws
  | returns (text : String)

/-- Truthiness test on the environment variable `VITE_GEMINI_API_KEY`
(`undefined` or the empty string are falsy). -/
def apiKeyIsFalsy (apiKey : Option String) : Bool :=
  match apiKey with
  | none => true
  | some k => k == ""

/-- The part of `handleGerarMapa` after entry to LOADING (identical in
both revisions): the API-key guard, then the `try`/`catch` around the
generation call and the reshaping step.  Returns the final state and
the list of alerts raised. -/
def generateFromLoading (s1 : AppState) (apiKey : Option String) (gen : GenOutcome) :
    AppState × List String :=
  if apiKeyIsFalsy apiKey then
    ({ s1 with telaAtual := "HOME" }, [alertChaveApi])
  else
    match gen with
    | GenOutcome.throws => ({ s1 with telaAtual := "HOME" }, [alertErroGerar])
    | GenOutcome.returns text =>
      match tryBlock text with
      | Except.error _ => ({ s1 with telaAtual := "HOME" }, [alertErroGerar])
      | Except.ok (pNodes, pEdges, resumoVal) =>
        ({ s1 with nodes := pNodes, edges := pEdges, resumo := resumoVal,
                   telaAtual := "RESULT" }, [])

/-- `handleGerarMapa` of `src/unnamed/part_000` (lines 105–167). -/
def handleGerarMapaV0 (s : AppState) (apiKey : Option String) (gen : GenOutcome) :
    AppState × List String :=
  if s.tema = "" then (s, [alertDigiteTema])
  else generateFromLoading (enterLoadingV0 s) apiKey gen

/-- `handleGerarMapa` of `src/unnamed/part_001` (lines 104–163). -/
def handleGerarMapaV1 (s : AppState) (apiKey : Option String) (gen : GenOutcome) :
    AppState × List String :=
  if s.tema = "" then (s, [alertDigiteTema])
  else generateFromLoading (enterLoadingV1 s) apiKey gen

/-- `handleVoltar` (identical in both revisions): reset every slot to its
initial value and return to HOME. -/
def handleVoltar (s : AppState) : AppState :=
  { s with tema := "", nodes := [], edges := [], resumo := Json.str "",
           telaAtual := "HOME" }

/-- Outcome of the effectful part of the PDF export (DOM rasterization
and PDF assembly). -/
inductive ExportOutcome where
  | throws
  | ok

/-- `handleExportPDF` (identical `try`/`catch` structure in both
revisions): an early return when the map container ref is `null`,
otherwise rasterize and assemble; on failure, alert — no state setter is
called anywhere in the function.  The third component is the name of the
saved file (`none` when nothing was saved). -/
def handleExportPDF (s : AppState) (mapRefPresent : Bool) (outcome : ExportOutcome) :
    AppState × List String × Option String :=
  if mapRefPresent = false then (s, [], none)
  else
    match outcome with
    | ExportOutcome.throws => (s, [alertErroExport], none)
    | ExportOutcome.ok =>
      (s, [], some ((if s.tema = "" then "mapa-mental" else s.tema) ++ ".pdf"))

/-! ### Helper lemmas -/

/-- Rebuilding a string from its character list is the identity. -/
theorem stringMk_data (s : String) : String.mk s.data = s := rfl

/-- Field access on an object value, in terms of `objFind`. -/
@[simp] theorem jget_obj (f : List (String × Json)) (k : String) :
    jget (Json.obj f) k = (objFind k f).getD Json.undef := rfl

/-- Looking up the key just written by `objInsert` yields the new value. -/
theorem objFind_objInsert_self (k : String) (v : Json) (o : List (String × Json)) :
    objFind k (objInsert k v o) = some v := by
  induction o with
  | nil => simp [objInsert, objFind]
  | cons p rest ih =>
    obtain ⟨k', v'⟩ := p
    by_cases h : k' = k
    · simp [objInsert, objFind, h]
    · simp [objInsert, objFind, h, ih]

/-- `objInsert` leaves every other key's binding unchanged. -/
theorem objFind_objInsert_ne (k k' : String) (v : Json) (o : List (String × Json))
    (h : k' ≠ k) : objFind k' (objInsert k v o) = objFind k' o := by
  have h' : ¬(k = k') := fun hc => h hc.symm
  induction o with
  | nil => simp [objInsert, objFind, h']
  | cons p rest ih =>
    obtain ⟨k'', v'⟩ := p
    by_cases h2 : k'' = k
    · subst h2
      simp [objInsert, objFind, h']
    · simp only [objInsert, if_neg h2, objFind]
      by_cases h3 : k'' = k'
      · simp [h3]
      · simp [h3, ih]

/-- A successful throwing map preserves the length. -/
theorem exMapList_ok_length (f : Json → Except Unit Json) :
    ∀ (xs ys : List Json), exMapList f xs = Except.ok ys → ys.length = xs.length := by
  intro xs
  induction xs with
  | nil => intro ys h; simp [exMapList] at h; simp [← h]
  | cons a as ih =>
    intro ys h
    simp only [exMapList] at h
    cases hfa : f a with
    | error e => rw [hfa] at h; simp at h
    | ok y =>
      rw [hfa] at h
      cases hrest : exMapList f as with
      | error e => rw [hrest] at h; simp at h
      | ok ys' =>
        rw [hrest] at h
        simp at h
        subst h
        simp [ih ys' hrest]

/-- A successful throwing map succeeds pointwise, at the same indices. -/
theorem exMapList_ok_get (f : Json → Except Unit Json) :
    ∀ (xs ys : List Json), exMapList f xs = Except.ok ys →
      ∀ (i : Nat) (x : Json), xs[i]? = some x →
        ∃ y, f x = Except.ok y ∧ ys[i]? = some y := by
  intro xs
  induction xs with
  | nil => intro ys h i x hx; simp at hx
  | cons a as ih =>
    intro ys h i x hx
    simp only [exMapList] at h
    cases hfa : f a with
    | error e => rw [hfa] at h; simp at h
    | ok y =>
      rw [hfa] at h
      cases hrest : exMapList f as with
      | error e => rw [hrest] at h; simp at h
      | ok ys' =>
        rw [hrest] at h
        simp at h
        subst h
        cases i with
        | zero =>
          simp at hx
          subst hx
          exact ⟨y, hfa, by simp⟩
        | succ n =>
          simp at hx
          obtain ⟨y', hy', hn⟩ := ih ys' hrest n x hx
          exact ⟨y', hy', by simpa using hn⟩

/-! ### The claims -/

/-- C2 — counterexample.  The claim states that fence-stripping the
input `"```json\n\x7b\"a\":1\x7d\n```"` yields exactly `"\x7b\"a\":1\x7d"` with no
surrounding whitespace.  It does not: the trailing-fence regex `/```$/`
removes only the three backticks at the end of input, so the newline
before the closing fence survives. -/
theorem c2_fence_strip_counterexample :
    cleanJsonString "```json\n\x7b\"a\":1\x7d\n```" ≠ "\x7b\"a\":1\x7d" ∧
    cleanJsonString "```json\n\x7b\"a\":1\x7d\n```" = "\x7b\"a\":1\x7d\n" := by
  constructor
  · decide
  · rfl

/-- C2 — amended claim: applying the fence-stripping function to
`"```json\n\x7b\"a\":1\x7d\n```"` yields exactly `"\x7b\"a\":1\x7d\n"` (the payload with
the newline that preceded the closing fence), and that output parses
successfully as JSON. -/
theorem c2_fence_strip_amended :
    cleanJsonString "```json\n\x7b\"a\":1\x7d\n```" = "\x7b\"a\":1\x7d\n" ∧
    (Json.parse "\x7b\"a\":1\x7d\n").isSome = true ∧
    Json.parse "\x7b\"a\":1\x7d\n" = some (Json.obj [("a", Json.num "1")]) := by
  exact ⟨rfl, rfl, rfl⟩

/-- C6 — confirmed: the fence-stripping function is the identity on
every string that parses as JSON and is not wrapped in a code fence
(no leading `"```json"` prefix, no trailing `"```"` suffix). -/
theorem c6_clean_identity (s : String)
    (hjson : (Json.parse s).isSome = true)
    (h1 : charsStartWith ("```json".data) s.data = false)
    (h2 : charsEndWith ("```".data) s.data = false) :
    cleanJsonString s = s := by
  simp [cleanJsonString, h1, h2, stringMk_data]

/-- C6 — witness at `"\x7b\"a\":1\x7d"`. -/
theorem c6_clean_identity_witness :
    (Json.parse "\x7b\"a\":1\x7d").isSome = true ∧
    charsStartWith ("```json".data) "\x7b\"a\":1\x7d".data = false ∧
    charsEndWith ("```".data) "\x7b\"a\":1\x7d".data = false ∧
    cleanJsonString "\x7b\"a\":1\x7d" = "\x7b\"a\":1\x7d" := by
  exact ⟨rfl, rfl, rfl, c6_clean_identity _ rfl rfl rfl⟩

/-- C9 — confirmed: from every state, `handleVoltar` resets the topic,
node list, edge list and summary to their initial empty values and
returns the screen state to HOME — the resulting state is exactly the
initial state of the component. -/
theorem c9_reset_initial (s : AppState) :
    handleVoltar s = initialAppState ∧
    (handleVoltar s).tema = "" ∧ (handleVoltar s).nodes = [] ∧
    (handleVoltar s).edges = [] ∧ (handleVoltar s).resumo = Json.str "" ∧
    (handleVoltar s).telaAtual = "HOME" := by
  exact ⟨rfl, rfl, rfl, rfl, rfl, rfl⟩

/-- A state in which a previous map is on screen, used to exercise the
entry-to-LOADING clearing. -/
def c1PriorState : AppState :=
  { tema := "Guerra Fria",
    nodes := [Json.obj [("id", Json.str "1")]],
    edges := [Json.obj [("id", Json.str "e1")]],
    resumo := Json.str "resumo antigo",
    telaAtual := "HOME" }

/-- C1 — counterexample.  The claim states that both revisions of the
generation handler clear the stored node list, edge list and summary on
moving from HOME to LOADING.  In `src/unnamed/part_000` (lines 110–112)
the edge list is not cleared: entry to LOADING leaves the previous edges
in place, and they are still there when a failed request returns the
screen to HOME. -/
theorem c1_loading_entry_counterexample :
    (enterLoadingV0 c1PriorState).telaAtual = "LOADING" ∧
    (enterLoadingV0 c1PriorState).nodes = [] ∧
    (enterLoadingV0 c1PriorState).resumo = Json.str "" ∧
    (enterLoadingV0 c1PriorState).edges = [Json.obj [("id", Json.str "e1")]] ∧
    (enterLoadingV0 c1PriorState).edges ≠ [] ∧
    (handleGerarMapaV0 c1PriorState (some "key") GenOutcome.throws).1.edges ≠ [] := by
  refine ⟨rfl, rfl, rfl, rfl, by simp [enterLoadingV0, c1PriorState], ?_⟩
  simp [handleGerarMapaV0, c1PriorState, generateFromLoading, apiKeyIsFalsy, enterLoadingV0]

/-- C1 — amended claim: at the start of every generation request with a
non-empty topic, both handlers move the screen state to LOADING before
any network call; the `part_001` handler clears the previously stored
node list, edge list and summary, while the `part_000` handler clears
only the node list and summary and leaves the previous edge list in
place. -/
theorem c1_loading_entry_clears (s : AppState) (apiKey : Option String)
    (gen : GenOutcome) (h : s.tema ≠ "") :
    handleGerarMapaV1 s apiKey gen = generateFromLoading (enterLoadingV1 s) apiKey gen ∧
    handleGerarMapaV0 s apiKey gen = generateFromLoading (enterLoadingV0 s) apiKey gen ∧
    enterLoadingV1 s = { s with telaAtual := "LOADING", nodes := [], edges := [],
                                resumo := Json.str "" } ∧
    enterLoadingV0 s = { s with telaAtual := "LOADING", nodes := [],
                                resumo := Json.str "" } ∧
    (enterLoadingV0 s).edges = s.edges := by
  refine ⟨?_, ?_, rfl, rfl, rfl⟩
  · simp [handleGerarMapaV1, h]
  · simp [handleGerarMapaV0, h]

/-- C1 — witness for the amended claim, at the concrete prior state. -/
theorem c1_loading_entry_clears_witness :
    c1PriorState.tema ≠ "" ∧
    (enterLoadingV1 c1PriorState).edges = [] ∧
    (enterLoadingV0 c1PriorState).edges = c1PriorState.edges := by
  have h := c1_loading_entry_clears c1PriorState (some "key") GenOutcome.throws
    (by simp [c1PriorState])
  exact ⟨by simp [c1PriorState], by rw [h.2.2.1], h.2.2.2.2⟩

/-- A RESULT-screen state with a rendered map, used for the export
claims. -/
def c8ResultState : AppState :=
  { tema := "Marketing Digital",
    nodes := [Json.obj [("id", Json.str "1")]],
    edges := [Json.obj [("id", Json.str "e1")]],
    resumo := Json.str "um resumo",
    telaAtual := "RESULT" }

/-- C8 — confirmed: when rasterization or PDF assembly fails, the export
handler reports the export alert, saves no file, and performs no state
transition — every stored field (topic, nodes, edges, summary) and the
RESULT screen state are unchanged. -/
theorem c8_export_failure_result (s : AppState) (h : s.telaAtual = "RESULT") :
    handleExportPDF s true ExportOutcome.throws = (s, [alertErroExport], none) ∧
    (handleExportPDF s true ExportOutcome.throws).1.telaAtual = "RESULT" ∧
    (handleExportPDF s true ExportOutcome.throws).1.tema = s.tema ∧
    (handleExportPDF s true ExportOutcome.throws).1.nodes = s.nodes ∧
    (handleExportPDF s true ExportOutcome.throws).1.edges = s.edges ∧
    (handleExportPDF s true ExportOutcome.throws).1.resumo = s.resumo := by
  refine ⟨rfl, ?_, rfl, rfl, rfl, rfl⟩
  simpa [handleExportPDF] using h

/-- C8 — witness at the concrete RESULT state. -/
theorem c8_export_failure_result_witness :
    c8ResultState.telaAtual = "RESULT" ∧
    handleExportPDF c8ResultState true ExportOutcome.throws =
      (c8ResultState, [alertErroExport], none) := by
  exact ⟨rfl, (c8_export_failure_result c8ResultState rfl).1⟩

/-- C4 — confirmed: every entry of `mapa.edges` is passed through with
`id`, `source` and `target` preserved and the two fixed presentation
attributes attached.  `processEdge` performs no member access on the
edge and never consults the node list, so no exception can be thrown and
the result is the same even when `source` or `target` names no existing
node id (the first conjunct exhibits the whole map as total). -/
theorem c4_edge_passthrough (es : List Json) (i : Nat) (e : Json)
    (ef : List (String × Json)) (he : es[i]? = some e) (hef : e = Json.obj ef) :
    jsMapArrP processEdge (Json.arr es) = Except.ok (es.map processEdge) ∧
    (es.map processEdge)[i]? = some (processEdge e) ∧
    jget (processEdge e) "id" = jget e "id" ∧
    jget (processEdge e) "source" = jget e "source" ∧
    jget (processEdge e) "target" = jget e "target" ∧
    jget (processEdge e) "animated" = Json.bool true ∧
    jget (processEdge e) "style" = edgeStyleJson := by
  subst hef
  refine ⟨rfl, by simp [he], ?_, ?_, ?_, ?_, ?_⟩ <;>
    simp [processEdge, jsSpread, objFind_objInsert_ne, objFind_objInsert_self]

/-- An edge whose `source` names no node of the accompanying payload. -/
def c4DanglingEdge : Json :=
  Json.obj [("id", Json.str "e9"), ("source", Json.str "999"), ("target", Json.str "2")]

/-- The only node of the payload accompanying `c4DanglingEdge`. -/
def c4Node0 : Json := Json.obj [("id", Json.str "1")]

/-- C4 — witness: a concrete dangling edge (its `source` `"999"` is not
the id of the payload's only node) is passed through unchanged apart
from the two presentation attributes, without an error. -/
theorem c4_edge_passthrough_witness :
    ([c4DanglingEdge][0]? = some c4DanglingEdge) ∧
    jget c4Node0 "id" ≠ jget c4DanglingEdge "source" ∧
    jsMapArrP processEdge (Json.arr [c4DanglingEdge]) =
      Except.ok ([c4DanglingEdge].map processEdge) ∧
    jget (processEdge c4DanglingEdge) "id" = Json.str "e9" ∧
    jget (processEdge c4DanglingEdge) "source" = Json.str "999" ∧
    jget (processEdge c4DanglingEdge) "target" = Json.str "2" ∧
    jget (processEdge c4DanglingEdge) "animated" = Json.bool true ∧
    jget (processEdge c4DanglingEdge) "style" = edgeStyleJson := by
  have h := c4_edge_passthrough [c4DanglingEdge] 0 c4DanglingEdge _ rfl rfl
  refine ⟨rfl, ?_, h.1, ?_, ?_, ?_, h.2.2.2.2.2.1, h.2.2.2.2.2.2⟩
  · have h1 : jget c4Node0 "id" = Json.str "1" := rfl
    have h2 : jget c4DanglingEdge "source" = Json.str "999" := rfl
    rw [h1, h2]
    intro hc
    injection hc with hs
    exact absurd hs (by decide)
  · rw [h.2.2.1]; rfl
  · rw [h.2.2.2.1]; rfl
  · rw [h.2.2.2.2.1]; rfl

/-- C10 — confirmed: after normalization, `data.id` equals the node's
top-level `id` for every (object) node, whatever the incoming `data` map
contained — the injected id overwrites any model-supplied `data.id`. -/
theorem c10_data_id_injection (n : Json) (nf : List (String × Json)) (pn : Json)
    (hn : n = Json.obj nf) (h : processNode n = Except.ok pn) :
    jget (jget pn "data") "id" = jget n "id" := by
  subst hn
  simp only [processNode, jsMember] at h
  simp only [Except.ok.injEq] at h
  subst h
  simp [objFind_objInsert_ne, objFind_objInsert_self]

/-- A node whose incoming `data` map already carries a conflicting
`id` field. -/
def c10Node : Json :=
  Json.obj [("id", Json.str "1"),
            ("position", Json.obj [("x", Json.num "0"), ("y", Json.num "0")]),
            ("data", Json.obj [("id", Json.str "7"), ("label", Json.str "Root")])]

/-- C10 — witness: for the node above (top-level id `"1"`, model-supplied
`data.id` `"7"`), normalization yields `data.id = "1"`. -/
theorem c10_data_id_injection_witness :
    jget (jget c10Node "data") "id" = Json.str "7" ∧
    processNode c10Node = Except.ok (Json.obj
      [("id", Json.str "1"),
       ("position", Json.obj [("x", Json.num "0"), ("y", Json.num "0")]),
       ("data", Json.obj [("id", Json.str "1"), ("label", Json.str "Root")]),
       ("type", Json.str "mindmap")]) ∧
    jget (jget (Json.obj
      [("id", Json.str "1"),
       ("position", Json.obj [("x", Json.num "0"), ("y", Json.num "0")]),
       ("data", Json.obj [("id", Json.str "1"), ("label", Json.str "Root")]),
       ("type", Json.str "mindmap")]) "data") "id" = jget c10Node "id" := by
  exact ⟨rfl, rfl, c10_data_id_injection c10Node _ _ rfl rfl⟩

/-- On success, the summary component produced by the reshaping step is
exactly `dadosCompletos.resumo || fallback`. -/
theorem tryBlockBody_ok_resumo (dados : Json) (r : List Json × List Json × Json)
    (hok : tryBlockBody dados = Except.ok r) :
    r.2.2 = jsOrElse (jget dados "resumo") (Json.str fallbackResumo) := by
  unfold tryBlockBody at hok
  split at hok
  · simp at hok
  · split at hok
    · simp at hok
    · split at hok
      · simp at hok
      · split at hok
        · simp at hok
        · split at hok
          · simp at hok
          · simp only [Except.ok.injEq] at hok
            subst hok
            rfl

/-- C5 — confirmed: for every parsed payload on which the normalizer
succeeds, a `resumo` that is the empty string or absent is replaced by
the fixed fallback string, and a non-empty string `resumo` is stored
verbatim. -/
theorem c5_resumo_fallback (dados : Json) (r : List Json × List Json × Json)
    (hok : tryBlockBody dados = Except.ok r) :
    ((jget dados "resumo" = Json.str "" ∨ jget dados "resumo" = Json.undef) →
      r.2.2 = Json.str fallbackResumo) ∧
    (∀ s, jget dados "resumo" = Json.str s → s ≠ "" → r.2.2 = Json.str s) := by
  have hr := tryBlockBody_ok_resumo dados r hok
  constructor
  · intro h
    rcases h with h | h <;> rw [hr, h] <;> simp [jsOrElse, jsTruthy]
  · intro s hs hne
    rw [hr, hs]
    simp [jsOrElse, jsTruthy, hne]

/-- A payload whose `resumo` is the empty string. -/
def c5Payload : Json :=
  Json.obj [("mapa", Json.obj [("nodes", Json.arr []), ("edges", Json.arr [])]),
            ("resumo", Json.str "")]

/-- C5 — witness: on a payload with empty `resumo`, the stored summary is
the fallback string. -/
theorem c5_resumo_fallback_witness :
    tryBlockBody c5Payload = Except.ok ([], [], Json.str fallbackResumo) ∧
    jget c5Payload "resumo" = Json.str "" ∧
    (([], [], Json.str fallbackResumo) :
      List Json × List Json × Json).2.2 = Json.str fallbackResumo := by
  exact ⟨rfl, rfl,
    (c5_resumo_fallback c5Payload ([], [], Json.str fallbackResumo) rfl).1 (Or.inl rfl)⟩

/-- C3 — counterexample.  The claim states that for every parsed payload
the normalized node's `data` map contains all of `n.data`'s fields plus
an injected `id`.  When the incoming `data` map already has an `id`
field with a different value, that field is overwritten, so the output
`data` map does not contain it. -/
def c3Node : Json :=
  Json.obj [("id", Json.str "1"),
            ("position", Json.obj [("x", Json.num "0"), ("y", Json.num "0")]),
            ("data", Json.obj [("id", Json.str "evil"), ("label", Json.str "Root")])]

/-- The value `processNode` produces for `c3Node`. -/
def c3NodeOut : Json :=
  Json.obj [("id", Json.str "1"),
            ("position", Json.obj [("x", Json.num "0"), ("y", Json.num "0")]),
            ("data", Json.obj [("id", Json.str "1"), ("label", Json.str "Root")]),
            ("type", Json.str "mindmap")]

/-- C3 — counterexample: the input node's `data` carries the field
`id ↦ "evil"`, but the normalized node's `data` map does not — its `id`
field holds `"1"` instead, so it does not contain all of `n.data`'s
fields. -/
theorem c3_node_normalization_counterexample :
    exMapList processNode [c3Node] = Except.ok [c3NodeOut] ∧
    jget (jget c3Node "data") "id" = Json.str "evil" ∧
    jget (jget c3NodeOut "data") "id" = Json.str "1" ∧
    jget (jget c3NodeOut "data") "id" ≠ Json.str "evil" := by
  refine ⟨rfl, rfl, rfl, ?_⟩
  have h : jget (jget c3NodeOut "data") "id" = Json.str "1" := rfl
  rw [h]
  intro hc
  injection hc with hs
  exact absurd hs (by decide)

/-- C3 — amended claim: for every parsed payload and every (object)
entry `n` of `mapa.nodes`, the normalized node list has the same length
and the corresponding entry preserves `n`'s top-level `id` and
`position` verbatim, carries the render-type tag `"mindmap"`, and its
`data` map contains all of `n.data`'s fields other than `id` together
with a field `id` equal to `n`'s top-level `id` (overwriting any
model-supplied `data.id`). -/
theorem c3_node_normalization (ns pns : List Json)
    (h : exMapList processNode ns = Except.ok pns) :
    pns.length = ns.length ∧
    ∀ (i : Nat) (n : Json) (nf nd : List (String × Json)),
      ns[i]? = some n → n = Json.obj nf → jget n "data" = Json.obj nd →
      ∃ pn, pns[i]? = some pn ∧
        jget pn "id" = jget n "id" ∧
        jget pn "position" = jget n "position" ∧
        jget pn "type" = Json.str "mindmap" ∧
        jget (jget pn "data") "id" = jget n "id" ∧
        (∀ k, k ≠ "id" → jget (jget pn "data") k = jget (jget n "data") k) := by
  refine ⟨exMapList_ok_length _ _ _ h, ?_⟩
  intro i n nf nd hin hn hd
  obtain ⟨pn, hpn, hiy⟩ := exMapList_ok_get _ _ _ h i n hin
  subst hn
  simp only [processNode, jsMember] at hpn
  simp only [Except.ok.injEq] at hpn
  subst hpn
  simp only [jget_obj] at hd
  refine ⟨_, hiy, ?_, ?_, ?_, ?_, ?_⟩
  · simp [jsSpread, objFind_objInsert_ne, objFind_objInsert_self]
  · simp [jsSpread, objFind_objInsert_ne, objFind_objInsert_self]
  · simp [jsSpread, objFind_objInsert_ne, objFind_objInsert_self]
  · simp [jsSpread, objFind_objInsert_ne, objFind_objInsert_self]
  · intro k hk
    simp only [jget_obj, objFind_objInsert_self, Option.getD_some]
    rw [hd]
    simp [jsSpread, objFind_objInsert_ne, hk]

/-- The node of the spec's concrete normalization example. -/
def c3SpecNode : Json :=
  Json.obj [("id", Json.str "1"),
            ("position", Json.obj [("x", Json.num "0"), ("y", Json.num "0")]),
            ("data", Json.obj [("label", Json.str "Root"), ("descricao", Json.str "d")])]

/-- What `processNode` produces for the spec's example node. -/
def c3SpecOut : Json :=
  Json.obj [("id", Json.str "1"),
            ("position", Json.obj [("x", Json.num "0"), ("y", Json.num "0")]),
            ("data", Json.obj [("label", Json.str "Root"), ("descricao", Json.str "d"),
                               ("id", Json.str "1")]),
            ("type", Json.str "mindmap")]

/-- C3 — witness at the spec's example payload
(`mapa.nodes = [\x7bid:"1", position:\x7bx:0,y:0\x7d, data:\x7blabel:"Root", descricao:"d"\x7d\x7d]`). -/
theorem c3_node_normalization_witness :
    exMapList processNode [c3SpecNode] = Except.ok [c3SpecOut] ∧
    jget c3SpecNode "data" =
      Json.obj [("label", Json.str "Root"), ("descricao", Json.str "d")] ∧
    jget c3SpecOut "id" = jget c3SpecNode "id" ∧
    jget c3SpecOut "type" = Json.str "mindmap" ∧
    jget (jget c3SpecOut "data") "id" = jget c3SpecNode "id" ∧
    jget (jget c3SpecOut "data") "label" = jget (jget c3SpecNode "data") "label" := by
  obtain ⟨pn, hpn, h1, h2, h3, h4, h5⟩ :=
    (c3_node_normalization [c3SpecNode] [c3SpecOut] rfl).2 0 c3SpecNode _ _ rfl rfl rfl
  have hpn' : pn = c3SpecOut := by simpa using hpn.symm
  subst hpn'
  exact ⟨rfl, rfl, h1, h3, h4, h5 "label" (by simp)⟩

/-- A HOME-screen state with a non-empty topic, used for the generation
failure claims. -/
def c7State : AppState :=
  { tema := "Fotossíntese", nodes := [], edges := [],
    resumo := Json.str "", telaAtual := "HOME" }

/-- C7 — confirmed: for every generation attempt (in either revision)
with a non-empty topic and a present API key, any failure — a thrown
network call, a JSON parse failure, or a throwing reshaping step, all of
which are the `Except.error` outcomes of `tryBlock` — is caught by the
single undifferentiated `catch`: the one generic alert is raised, the
screen state returns to HOME, and the stored node list is the empty list
cleared on entry to LOADING, never a partial result. -/
theorem c7_generation_failure_home (s : AppState) (k : String) (gen : GenOutcome)
    (htema : s.tema ≠ "") (hk : k ≠ "")
    (hfail : gen = GenOutcome.throws ∨
      ∃ t, gen = GenOutcome.returns t ∧ tryBlock t = Except.error ()) :
    ((handleGerarMapaV0 s (some k) gen).1.telaAtual = "HOME" ∧
     (handleGerarMapaV0 s (some k) gen).1.nodes = [] ∧
     (handleGerarMapaV0 s (some k) gen).2 = [alertErroGerar]) ∧
    ((handleGerarMapaV1 s (some k) gen).1.telaAtual = "HOME" ∧
     (handleGerarMapaV1 s (some k) gen).1.nodes = [] ∧
     (handleGerarMapaV1 s (some k) gen).2 = [alertErroGerar]) := by
  have hkey : apiKeyIsFalsy (some k) = false := by simp [apiKeyIsFalsy, hk]
  rcases hfail with h | ⟨t, hg, htb⟩
  · subst h
    simp [handleGerarMapaV0, handleGerarMapaV1, htema, generateFromLoading, hkey,
      enterLoadingV0, enterLoadingV1]
  · subst hg
    simp [handleGerarMapaV0, handleGerarMapaV1, htema, generateFromLoading, hkey,
      htb, enterLoadingV0, enterLoadingV1]

/-- C7 — witness: the malformed (truncated) model response `"\x7b\"mapa\":"`
fails to parse — `tryBlock` detects the error — and the run of either
handler ends at HOME with an empty node list and the generic alert. -/
theorem c7_generation_failure_home_witness :
    c7State.tema ≠ "" ∧ ("chave" : String) ≠ "" ∧
    tryBlock "\x7b\"mapa\":" = Except.error () ∧
    (handleGerarMapaV1 c7State (some "chave")
      (GenOutcome.returns "\x7b\"mapa\":")).1.telaAtual = "HOME" ∧
    (handleGerarMapaV1 c7State (some "chave")
      (GenOutcome.returns "\x7b\"mapa\":")).1.nodes = [] ∧
    (handleGerarMapaV0 c7State (some "chave")
      (GenOutcome.returns "\x7b\"mapa\":")).2 = [alertErroGerar] := by
  have h := c7_generation_failure_home c7State "chave"
    (GenOutcome.returns "\x7b\"mapa\":") (by simp [c7State]) (by simp)
    (Or.inr ⟨_, rfl, rfl⟩)
  exact ⟨by simp [c7State], by simp, rfl, h.2.1, h.2.2.1, h.1.2.2⟩
